import Mathlib

/-
  Shallow embedding of the ESPAR report generator (espar_app.py).

  A spreadsheet cell is a string, a number, or a missing value (pandas NaN).
  Numbers are modelled as rationals.  Dataframes read with no header carry a
  default numeric column index; the extractors may reassign the column labels
  of the frame passed by the caller (pandas mutation through the argument),
  which we model by returning the caller-visible frame alongside the result.
-/

inductive Cell where
  | str (s : String)
  | num (q : Rat)
  | empty
deriving DecidableEq, Repr

/-- Lowercase an ASCII character, as Python str.lower does on ASCII text. -/
def charLower (c : Char) : Char :=
  if c.toNat ≥ 65 ∧ c.toNat ≤ 90 then Char.ofNat (c.toNat + 32) else c

def strLower (s : String) : String := String.mk (s.data.map charLower)

/-- Containment of one character list inside another (Python substring test). -/
def dataIn (needle : List Char) : List Char → Bool
  | [] => needle.isEmpty
  | c :: rest => List.isPrefixOf needle (c :: rest) || dataIn needle rest

/-- Python substring containment: strIn n h models the expression n in h. -/
def strIn (needle hay : String) : Bool := dataIn needle.data hay.data

def digitVal (c : Char) : Option Nat :=
  if c.isDigit then some (c.toNat - 48) else none

def digitsValAux : List Char → Nat → Option Nat
  | [], acc => some acc
  | c :: rest, acc =>
    match digitVal c with
    | some d => digitsValAux rest (acc * 10 + d)
    | none => none

/-- Parse an unsigned decimal numeral, with an optional fractional part. -/
def parseRatCore (cs : List Char) : Option Rat :=
  let intPart := cs.takeWhile (fun c => c.isDigit)
  let rest := cs.dropWhile (fun c => c.isDigit)
  match rest with
  | [] =>
    if intPart.isEmpty then none
    else (digitsValAux intPart 0).map (fun n => (n : Rat))
  | '.' :: frac =>
    if frac.all (fun c => c.isDigit) ∧ (intPart ≠ [] ∨ frac ≠ []) then
      match digitsValAux intPart 0, digitsValAux frac 0 with
      | some i, some f =>
        some ((i : Rat) + (f : Rat) / ((10 ^ frac.length : Nat) : Rat))
      | _, _ => none
    else none
  | _ => none

/-- Numeric parse of a string, modelling pandas to_numeric on text cells. -/
def parseRat (s : String) : Option Rat :=
  match s.trim.data with
  | [] => none
  | '-' :: rest => (parseRatCore rest).map (fun q => -q)
  | '+' :: rest => parseRatCore rest
  | cs => parseRatCore cs

/-- pd.to_numeric with errors coerce: numbers pass through, text is parsed,
missing stays missing; none models the NaN result. -/
def toNumeric : Cell → Option Rat
  | .num q => some q
  | .str s => parseRat s
  | .empty => none

/-- Rendering of a rational for row concatenation.  Integral values render as
their numeral; non-integral values as a fraction.  The exact digits never
matter to the keyword searches, which look for alphabetic text. -/
def ratStr (q : Rat) : String :=
  if q.den = 1 then toString q.num else toString q.num ++ "/" ++ toString q.den

/-- Stringification of a cell, as pandas astype str: missing renders "nan". -/
def cellStr : Cell → String
  | .str s => s
  | .num q => ratStr q
  | .empty => "nan"

/-- A dataframe: column labels plus rows of cells.  Files are read with no
header, so the initial labels are the default numeric range index. -/
structure Frame where
  labels : List Cell
  rows : List (List Cell)
deriving DecidableEq, Repr

/-- Concatenation of a row as strings with a space separator, as in
row astype str, str cat with a single space separator. -/
def rowStr (row : List Cell) : String :=
  String.intercalate " " (row.map cellStr)

/-- Searches a dataframe for a keyword and returns the first row index whose
concatenated text contains it (find_val_in_df; none models the -1 result). -/
def find_val_in_df (df : Frame) (keyword : String) : Option Nat :=
  df.rows.findIdx? (fun row => strIn keyword (rowStr row))

/-- Cell of a row at a column position; out of range is missing. -/
def getCell (row : List Cell) (j : Nat) : Cell := row.getD j Cell.empty

/-- First column whose label equals the given value (pandas label lookup). -/
def findColEq (labels : List Cell) (target : Cell) : Option Nat :=
  labels.findIdx? (fun c => c == target)

/-- First column whose stringified label contains the given text. -/
def findColSub (labels : List Cell) (needle : String) : Option Nat :=
  labels.findIdx? (fun c => strIn needle (cellStr c))

/-- Ordered keyword table of the recommendation engine
(get_smart_recommendation); first containment match wins. -/
def recommendationTable : List (String × String) :=
  [ ("attendance", "Implement strict attendance monitoring and issue warning letters to chronic absentees."),
    ("late", "Review submission deadlines and enforce strict penalties for late submissions to encourage discipline."),
    ("submit", "Review submission deadlines and enforce strict penalties for late submissions to encourage discipline."),
    ("theory", "Introduce more interactive visual aids and real-world case studies to explain abstract theoretical concepts."),
    ("concept", "Introduce more interactive visual aids and real-world case studies to explain abstract theoretical concepts."),
    ("calculation", "Conduct remedial drills focusing specifically on step-by-step calculation methods."),
    ("math", "Conduct remedial drills focusing specifically on step-by-step calculation methods."),
    ("programming", "Organize \x27Code Clinics\x27 where students can get one-on-one debugging help from seniors or lecturers."),
    ("coding", "Organize \x27Code Clinics\x27 where students can get one-on-one debugging help from seniors or lecturers."),
    ("drawing", "Host extra studio sessions with live demonstrations to improve technique application."),
    ("sketching", "Host extra studio sessions with live demonstrations to improve technique application."),
    ("design", "Incorporate critique sessions (critique) earlier in the semester to provide formative feedback."),
    ("visual", "Provide more examples of high-quality visual analysis to guide student expectations."),
    ("communication", "Integrate mandatory presentation components in assessments to build confidence and skills."),
    ("english", "Encourage usage of English in class discussions and recommend support workshops."),
    ("group", "Implement a peer-evaluation mechanism to ensure fair contribution in group projects."),
    ("project", "Break down the final project into smaller milestones to monitor progress more effectively."),
    ("software", "Conduct specific lab tutorials focusing on software tools and shortcuts."),
    ("basic", "Conduct \x27Back-to-Basics\x27 revision classes to strengthen fundamental understanding.") ]

def genericRecommendation : String :=
  "Conduct focused revision classes targeting the specific weak topics identified in the assessment."

/-- Keyword lookup over the lowercased issue text plus course context. -/
def get_smart_recommendation (issue_text : String) (course_name : String) : String :=
  let text := strLower (issue_text ++ " " ++ course_name)
  match recommendationTable.find? (fun p => strIn p.1 text) with
  | some p => p.2
  | none => genericRecommendation

/-- Whether the first eight characters are four uppercase letters then four
digits, the regex pattern of extract_course_code. -/
def codeAt (cs : List Char) : Bool :=
  match cs with
  | a :: b :: c :: d :: e :: f :: g :: h :: _ =>
    a.isUpper && b.isUpper && c.isUpper && d.isUpper &&
    e.isDigit && f.isDigit && g.isDigit && h.isDigit
  | _ => false

/-- Leftmost match of the course-code pattern, as re.search finds it. -/
def findCode : List Char → Option String
  | [] => none
  | c :: rest =>
    if codeAt (c :: rest) then some (String.mk ((c :: rest).take 8))
    else findCode rest

/-- Extracts a course code such as DMIM1033 from a filename, with the
sentinel fallback. -/
def extract_course_code (filename : String) : String :=
  (findCode filename.data).getD "Unknown_Course"

/-- Normalization applied to the dashboard pass rate (raw ≤ 1 is a fraction). -/
def normalizeDash (raw : Rat) : Rat := if raw ≤ 1 then raw * 100 else raw

/-- Normalization applied to PLO scores. -/
def normalizePlo (v : Rat) : Rat := if v ≤ 1 then v * 100 else v

/-- Normalization applied to the issue-log score filter. -/
def normalizeCqi (v : Rat) : Rat := if v ≤ 1 then v * 100 else v

/-- The uniform percentage normalization rule as the spec states it. -/
def normalizePercent (v : Rat) : Rat := if v ≤ 1 then v * 100 else v

/-- Body of the dashboard extraction after the header row has been promoted:
drop rows missing the Total Students value, read the first remaining row.
A missing exact Total Students column is the KeyError path, caught and
yielding the zero result.  The first component none models a NaN student
count (non-numeric cell under to_numeric). -/
def dashFromBody (headerRow : List Cell) (body : List (List Cell)) :
    Option Rat × Rat :=
  match findColEq headerRow (Cell.str "Total Students") with
  | none => (some 0, 0)
  | some j =>
    match body.filter (fun r => getCell r j != Cell.empty) with
    | [] => (some 0, 0)
    | r :: _ =>
      ( toNumeric (getCell r j),
        match findColSub headerRow "Pass Rate" with
        | none => 0
        | some jp =>
          match toNumeric (getCell r jp) with
          | none => 0
          | some raw => normalizeDash raw )

/-- Dashboard extractor.  The second component is the frame as the caller
sees it afterwards: locating a header reassigns the column labels of the
argument before the local reslicing. -/
def extract_dashboard_metrics (df : Frame) : (Option Rat × Rat) × Frame :=
  match find_val_in_df df "Total Students" with
  | none => ((some 0, 0), df)
  | some h =>
    let headerRow := df.rows.getD h []
    (dashFromBody headerRow (df.rows.drop (h + 1)),
     { labels := headerRow, rows := df.rows })

/-- Whether a first-column cell marks the PLO values row: a string containing
Achievement or Average (case-sensitive). -/
def achCell : Cell → Bool
  | .str s => strIn "Achievement" s || strIn "Average" s
  | _ => false

/-- Dictionary insertion: replace the value at an existing key in place,
else append the pair. -/
def updAssoc (m : List (String × Rat)) (k : String) (v : Rat) :
    List (String × Rat) :=
  if m.any (fun p => p.1 == k) then
    m.map (fun p => if p.1 == k then (k, v) else p)
  else m ++ [(k, v)]

/-- One column of the PLO score loop: a column whose label contains PLO
contributes its parsed value from the values row, kept only when numeric
and positive, normalized, under the trimmed label. -/
def ploStep (headerRow targetRow : List Cell) (acc : List (String × Rat))
    (col : Cell) : List (String × Rat) :=
  if strIn "PLO" (cellStr col) then
    match findColEq headerRow col with
    | none => acc
    | some jc =>
      match toNumeric (getCell targetRow jc) with
      | some v =>
        if 0 < v then updAssoc acc ((cellStr col).trim) (normalizePlo v)
        else acc
      | none => acc
  else acc

/-- Builds the PLO score mapping from the promoted header row and the values
row, one column at a time. -/
def ploScores (headerRow targetRow : List Cell) : List (String × Rat) :=
  headerRow.foldl (ploStep headerRow targetRow) []

/-- PLO extraction after the header row has been promoted: scan the first
column of the body for the values row, first match wins.  An empty header
is the IndexError path on the first column label, caught and yielding the
empty mapping. -/
def ploFromBody (headerRow : List Cell) (body : List (List Cell)) :
    List (String × Rat) :=
  match headerRow with
  | [] => []
  | firstLabel :: _ =>
    let firstColIdx := (findColEq headerRow firstLabel).getD 0
    match body.findIdx? (fun r => achCell (getCell r firstColIdx)) with
    | none => []
    | some tIdx => ploScores headerRow (body.getD tIdx [])

/-- Header search of the PLO extractor: either keyword form satisfies it. -/
def ploHeaderIdx (df : Frame) : Option Nat :=
  df.rows.findIdx? (fun row => strIn "PLO 1" (rowStr row) || strIn "PLO1" (rowStr row))

/-- PLO extractor, with the caller-visible frame as second component. -/
def extract_plo_metrics (df : Frame) : List (String × Rat) × Frame :=
  match ploHeaderIdx df with
  | none => ([], df)
  | some h =>
    let headerRow := df.rows.getD h []
    (ploFromBody headerRow (df.rows.drop (h + 1)),
     { labels := headerRow, rows := df.rows })

structure IssueEntry where
  issue : String
  action : String
  evidence : String
deriving DecidableEq, Repr

/-- Column positions identified from the promoted issue-log header. -/
structure CqiCols where
  colIssue : Nat
  colAction : Nat
  colEvidence : Option Nat
  colStatus : Option Nat
  colScore : Option Nat
deriving DecidableEq, Repr

/-- Identify the issue, action, evidence, status and score columns.  A
missing issue or action column is the IndexError path, caught and yielding
the empty list. -/
def cqiColsOf (headerRow : List Cell) : Option CqiCols :=
  match headerRow.findIdx? (fun c => strIn "Issue" (cellStr c)),
        headerRow.findIdx? (fun c => strIn "Suggestion" (cellStr c)) with
  | some ji, some ja =>
    some { colIssue := ji, colAction := ja,
           colEvidence := headerRow.findIdx?
             (fun c => strIn "Audit" (cellStr c) || strIn "Evidence" (cellStr c)),
           colStatus := headerRow.findIdx?
             (fun c => strIn "Pass" (cellStr c) || strIn "Met" (cellStr c)),
           colScore := headerRow.findIdx?
             (fun c => strIn "%" (cellStr c) || strIn "Score" (cellStr c)) }
  | _, _ => none

/-- The failure filter of the issue-log extractor: an explicit fail or no in
the status column, else a normalized score below 50.  A non-numeric score is
NaN, whose comparisons are false, so it never marks a failure. -/
def cqiIsFail (cols : CqiCols) (row : List Cell) : Bool :=
  let statusFail :=
    match cols.colStatus with
    | some j =>
      let status_val := strLower (cellStr (getCell row j))
      strIn "fail" status_val || strIn "no" status_val
    | none => false
  if statusFail then true
  else
    match cols.colScore with
    | some k =>
      match toNumeric (getCell row k) with
      | some q => decide (normalizeCqi q < 50)
      | none => false
    | none => false

/-- Issue text of a row: stringified when present, else the empty string. -/
def cqiIssueText (cols : CqiCols) (row : List Cell) : String :=
  if getCell row cols.colIssue != Cell.empty
  then cellStr (getCell row cols.colIssue) else ""

/-- Action text of a row: stringified when present, else the empty string. -/
def cqiActionText (cols : CqiCols) (row : List Cell) : String :=
  if getCell row cols.colAction != Cell.empty
  then cellStr (getCell row cols.colAction) else ""

/-- Meaningful-issue test: longer than three characters and neither the
literal zero nor a lowercase nan. -/
def issueNontrivial (cols : CqiCols) (row : List Cell) : Bool :=
  let t := cqiIssueText cols row
  decide (t.length > 3) && !(t == "0") && !(strLower t == "nan")

/-- Processing of one issue-log row: at most one entry, produced when the
row is failing and its issue text is meaningful; a trivial action text is
replaced by the recommendation engine output on the issue text. -/
def cqiRow (cols : CqiCols) (row : List Cell) : List IssueEntry :=
  if cqiIsFail cols row then
    if issueNontrivial cols row then
      let issue_text := cqiIssueText cols row
      let action_text := cqiActionText cols row
      let action :=
        if action_text.length < 4 ∨ action_text = "0"
        then get_smart_recommendation issue_text "" else action_text
      let evidence :=
        match cols.colEvidence with
        | some je =>
          if getCell row je != Cell.empty then cellStr (getCell row je)
          else "Course Audit Report"
        | none => "Course Audit Report"
      [{ issue := issue_text, action := action, evidence := evidence }]
    else []
  else []

/-- Issue-log extractor, with the caller-visible frame as second component. -/
def extract_cqi_issues (df : Frame) : List IssueEntry × Frame :=
  match df.rows.findIdx?
      (fun row => strIn "Issue" (rowStr row) && strIn "Suggestion" (rowStr row)) with
  | none => ([], df)
  | some h =>
    let headerRow := df.rows.getD h []
    let body := df.rows.drop (h + 1)
    ( (match cqiColsOf headerRow with
       | none => []
       | some cols => body.foldl (fun acc r => acc ++ cqiRow cols r) []),
      { labels := headerRow, rows := df.rows })

/-- Per-course mutable aggregate built during one run.  The stored student
count and pass rate are always numeric (the update below stores them only
when the extracted count is a positive number), so the numeric coercion
applied again during aggregation is the identity on them. -/
structure CourseRecord where
  students : Rat
  pass_rate : Rat
  plo : List (String × Rat)
  cqi : List IssueEntry
  has_dashboard : Bool
deriving DecidableEq, Repr

def defaultRecord : CourseRecord :=
  { students := 0, pass_rate := 0, plo := [], cqi := [], has_dashboard := false }

/-- The guard on a dashboard extraction result: kept only when the student
count is a number strictly greater than zero (a NaN count, modelled none,
compares false in Python and is dropped the same way). -/
def posPart (res : Option Rat × Rat) : Option (Rat × Rat) :=
  match res.1 with
  | some s => if 0 < s then some (s, res.2) else none
  | none => none

/-- Applies one dashboard extraction result to a course record: overwrite
the student count, pass rate and dashboard flag when the extracted count is
positive, else leave the record unchanged. -/
def applyDashboard (rec : CourseRecord) (res : Option Rat × Rat) : CourseRecord :=
  match posPart res with
  | some sr => { rec with students := sr.1, pass_rate := sr.2, has_dashboard := true }
  | none => rec

/-- Successive dashboard extraction results applied to one record, in file
processing order. -/
def dashSeqFold (rec : CourseRecord) (l : List (Option Rat × Rat)) : CourseRecord :=
  l.foldl applyDashboard rec

/-- The last extraction result of the sequence that passes the positive
student-count guard, if any. -/
def lastPosDash : List (Option Rat × Rat) → Option (Rat × Rat)
  | [] => none
  | x :: l =>
    match lastPosDash l with
    | some y => some y
    | none => posPart x

/-- Content of an uploaded file: a flat table read as one grid, or a
workbook of named sheets.  The application branches on the xlsx filename
suffix, which determines how the bytes were parsed. -/
inductive FileContent where
  | table (grid : Frame)
  | workbook (sheets : List (String × Frame))
deriving Repr

structure UploadedFile where
  name : String
  content : FileContent
deriving Repr

def lookupRec (cd : List (String × CourseRecord)) (k : String) :
    Option CourseRecord :=
  (cd.find? (fun p => p.1 == k)).map (fun p => p.2)

/-- Point update of the record stored under a key. -/
def updateRec (cd : List (String × CourseRecord)) (k : String)
    (f : CourseRecord → CourseRecord) : List (String × CourseRecord) :=
  cd.map (fun p => if p.1 == k then (k, f p.2) else p)

/-- Python dict.update on the PLO mapping: insert or overwrite each pair. -/
def mergePlo (old new : List (String × Rat)) : List (String × Rat) :=
  new.foldl (fun acc p => updAssoc acc p.1 p.2) old

/-- Processing of one uploaded file: create the default record for the
extracted course key when absent, then route by sheet name (workbooks) or
filename substring (flat tables) into the three extractors. -/
def processFile (cd : List (String × CourseRecord)) (file : UploadedFile) :
    List (String × CourseRecord) :=
  let code := extract_course_code file.name
  let cd0 :=
    match lookupRec cd code with
    | none => cd ++ [(code, defaultRecord)]
    | some _ => cd
  match file.content with
  | .workbook sheets =>
    let cd1 :=
      match sheets.find? (fun p => strIn "Dashboard" p.1 || strIn "CRR" p.1) with
      | some p =>
        updateRec cd0 code (fun rec => applyDashboard rec (extract_dashboard_metrics p.2).1)
      | none => cd0
    let cd2 :=
      match sheets.find? (fun p => strIn "Table 3" p.1 || strIn "PLO" p.1) with
      | some p =>
        let plos := (extract_plo_metrics p.2).1
        if plos != [] then
          updateRec cd1 code (fun rec => { rec with plo := mergePlo rec.plo plos })
        else cd1
      | none => cd1
    match sheets.find? (fun p => strIn "Table 2" p.1 || strIn "CLO" p.1) with
    | some p =>
      let items := (extract_cqi_issues p.2).1
      if items != [] then
        updateRec cd2 code (fun rec => { rec with cqi := rec.cqi ++ items })
      else cd2
    | none => cd2
  | .table grid =>
    if strIn "Dashboard" file.name || strIn "CRR" file.name then
      updateRec cd0 code (fun rec => applyDashboard rec (extract_dashboard_metrics grid).1)
    else if strIn "Table 3" file.name || strIn "PLO" file.name then
      let plos := (extract_plo_metrics grid).1
      if plos != [] then
        updateRec cd0 code (fun rec => { rec with plo := mergePlo rec.plo plos })
      else cd0
    else if strIn "Table 2" file.name then
      let items := (extract_cqi_issues grid).1
      if items != [] then
        updateRec cd0 code (fun rec => { rec with cqi := rec.cqi ++ items })
      else cd0
    else cd0

/-- One full run over the uploaded files, building the course mapping. -/
def processFiles (files : List UploadedFile) : List (String × CourseRecord) :=
  files.foldl processFile []

/-- Python round: round half to even. -/
def pyRound (q : Rat) : Int :=
  let f : Int := q.floor
  let frac : Rat := q - (f : Rat)
  if frac < 1/2 then f
  else if 1/2 < frac then f + 1
  else if f % 2 = 0 then f else f + 1

/-- One emitted row of the per-course results table. -/
structure CourseRow where
  code : String
  passRate : Rat
  failRate : Rat
  students : Rat
deriving DecidableEq, Repr

/-- The per-course row as the aggregation loop emits it: the fail rate is
100 minus the pass rate when that rate is at most 100, else 0. -/
def mkCourseRow (p : String × CourseRecord) : CourseRow :=
  { code := p.1, passRate := p.2.pass_rate,
    failRate := if p.2.pass_rate ≤ 100 then 100 - p.2.pass_rate else 0,
    students := p.2.students }

/-- Dictionary of outcome-label score lists: append to an existing list,
else insert a fresh singleton. -/
def appendPlo (m : List (String × List Rat)) (k : String) (v : Rat) :
    List (String × List Rat) :=
  if m.any (fun p => p.1 == k) then
    m.map (fun p => if p.1 == k then (p.1, p.2 ++ [v]) else p)
  else m ++ [(k, [v])]

/-- State built by the aggregation loop. -/
structure AggState where
  rows : List CourseRow
  ploAll : List (String × List Rat)
  total : Rat
  passed : Rat
deriving Repr

/-- One iteration of the aggregation loop over a course record: the passed
count is the rounded product of student count and fractional pass rate. -/
def aggStep (st : AggState) (p : String × CourseRecord) : AggState :=
  let studs := p.2.students
  let rate := p.2.pass_rate
  let passed : Int := pyRound (studs * (rate / 100))
  { rows := st.rows ++ [mkCourseRow p],
    ploAll := p.2.plo.foldl (fun m q => appendPlo m q.1 q.2) st.ploAll,
    total := st.total + studs,
    passed := st.passed + (passed : Rat) }

def aggregate (cd : List (String × CourseRecord)) : AggState :=
  cd.foldl aggStep { rows := [], ploAll := [], total := 0, passed := 0 }

/-- The overall pass rate: cohort-weighted when any students were counted,
else the unweighted mean of per-course rates when any rows exist, else 0. -/
def overall_pass_rate (cd : List (String × CourseRecord)) : Rat :=
  let st := aggregate cd
  if 0 < st.total then st.passed / st.total * 100
  else if st.rows ≠ [] then
    (st.rows.map (fun r => r.passRate)).sum / (st.rows.length : Rat)
  else 0

/-- The high-failure subset of the results table: fail rate above 15. -/
def high_fail_rows (cd : List (String × CourseRecord)) : List CourseRow :=
  (aggregate cd).rows.filter (fun r => decide (15 < r.failRate))

/-
  Concrete grids, files and records used to evaluate the development on
  explicit inputs.
-/

/-- A grid whose header row holds the Total Students keyword but in which no
row mentions Pass Rate. -/
def gC1dash : Frame :=
  { labels := [Cell.num 0], rows := [[Cell.str "Total Students"], [Cell.num 50]] }

/-- The minimal dashboard grid of the specification, with a fractional rate. -/
def gSpecDash : Frame :=
  { labels := [Cell.num 0, Cell.num 1, Cell.num 2],
    rows := [[Cell.str "X", Cell.str "Total Students", Cell.str "Pass Rate"],
             [Cell.str "Y", Cell.num 50, Cell.num (mkRat 9 10)]] }

/-- A dashboard grid with default numeric labels, used to observe the label
reassignment. -/
def gC9 : Frame :=
  { labels := [Cell.num 0], rows := [[Cell.str "Total Students"], [Cell.num 5]] }

/-- A dashboard grid extracting ten students at a fifty percent rate. -/
def gDashA : Frame :=
  { labels := [Cell.num 0, Cell.num 1],
    rows := [[Cell.str "Total Students", Cell.str "Pass Rate"],
             [Cell.num 10, Cell.num (mkRat 1 2)]] }

/-- A dashboard grid extracting zero students. -/
def gDashB : Frame :=
  { labels := [Cell.num 0, Cell.num 1],
    rows := [[Cell.str "Total Students", Cell.str "Pass Rate"],
             [Cell.num 0, Cell.num 0]] }

/-- First dashboard file of a course. -/
def fileDashA : UploadedFile :=
  { name := "ABCD1234_Dashboard_a.csv", content := FileContent.table gDashA }

/-- Second dashboard file of the same course, extracting zero students. -/
def fileDashB : UploadedFile :=
  { name := "ABCD1234_Dashboard_b.csv", content := FileContent.table gDashB }

/-- A dashboard file whose pass-rate cell is a negative fraction, which the
normalization rule scales to minus fifty percent. -/
def fileDashNeg : UploadedFile :=
  { name := "WXYZ7777_Dashboard.csv",
    content := FileContent.table
      { labels := [Cell.num 0, Cell.num 1],
        rows := [[Cell.str "Total Students", Cell.str "Pass Rate"],
                 [Cell.num 10, Cell.num (mkRat (-1) 2)]] } }

/-- A course record carrying given student and pass-rate numbers. -/
def recAgg (s r : Rat) : CourseRecord :=
  { students := s, pass_rate := r, plo := [], cqi := [], has_dashboard := true }

/-- A record with no students and a pass rate of one hundred, probing the
unweighted-mean fallback. -/
def recMeanProbe : CourseRecord :=
  { students := 0, pass_rate := 100, plo := [], cqi := [], has_dashboard := false }

/-- The failing-status side of the issue filter, phrased as the claim does:
the status text contains fail or no case-insensitively. -/
def statusMatches (cols : CqiCols) (row : List Cell) : Bool :=
  match cols.colStatus with
  | some j =>
    strIn "fail" (strLower (cellStr (getCell row j))) ||
    strIn "no" (strLower (cellStr (getCell row j)))
  | none => false

/-- The failing-score side of the issue filter, phrased as the claim does:
a score column exists and its normalized numeric value is below fifty. -/
def scoreFailsSpec (cols : CqiCols) (row : List Cell) : Bool :=
  match cols.colScore with
  | some k =>
    match toNumeric (getCell row k) with
    | some q => decide (normalizePercent q < 50)
    | none => false
  | none => false

/-- The recommendation text stored under the keyword late. -/
def lateAction : String :=
  "Review submission deadlines and enforce strict penalties for late submissions to encourage discipline."

/-- Columns identified from a header with a combined status column. -/
def colsC4 : CqiCols :=
  { colIssue := 1, colAction := 2, colEvidence := none, colStatus := some 0,
    colScore := none }

/-- An issue-log grid with one passing row and one failing row with an empty
action cell. -/
def gC4 : Frame :=
  { labels := [Cell.num 0, Cell.num 1, Cell.num 2],
    rows := [[Cell.str "Pass/Fail", Cell.str "Issue", Cell.str "Suggestion"],
             [Cell.str "Pass", Cell.str "Attendance problems", Cell.str ""],
             [Cell.str "Fail", Cell.str "Late submissions", Cell.str ""]] }

/-- The PLO grid of the claim: one fractional score and one zero score. -/
def gC5 : Frame :=
  { labels := [Cell.num 0, Cell.num 1, Cell.num 2],
    rows := [[Cell.str "Label", Cell.str "PLO 1", Cell.str "PLO 2"],
             [Cell.str "Achievement", Cell.num (mkRat 6 10), Cell.num 0]] }

/-- Soundness predicate of one emitted PLO pair: it comes from a PLO-labelled
column of the header whose parsed values-row entry is numeric and positive,
and its value is that entry normalized. -/
def ploSound (hr tr : List Cell) (p : String × Rat) : Prop :=
  ∃ col, col ∈ hr ∧ strIn "PLO" (cellStr col) = true ∧ p.1 = (cellStr col).trim ∧
    ∃ jc w, findColEq hr col = some jc ∧ toNumeric (getCell tr jc) = some w ∧
      0 < w ∧ p.2 = normalizePercent w

/-
  Helper lemmas shared by the claim theorems.
-/

/-- Rows emitted by the aggregation loop are exactly the per-course rows of
the processed records, in order. -/
theorem agg_rows (cd : List (String × CourseRecord)) :
    ∀ st : AggState, (cd.foldl aggStep st).rows = st.rows ++ cd.map mkCourseRow := by
  induction cd with
  | nil => intro st; simp
  | cons p cd ih =>
    intro st
    show ((cd.foldl aggStep (aggStep st p)).rows) = _
    rw [ih]
    simp [aggStep]

/-- The cohort student total is the sum of the per-record student counts. -/
theorem agg_total (cd : List (String × CourseRecord)) :
    ∀ st : AggState,
      (cd.foldl aggStep st).total = st.total + (cd.map (fun p => p.2.students)).sum := by
  induction cd with
  | nil => intro st; simp
  | cons p cd ih =>
    intro st
    show ((cd.foldl aggStep (aggStep st p)).total) = _
    rw [ih]
    simp [aggStep]
    ring

/-- The cohort passed total is the sum of the rounded per-record products. -/
theorem agg_passed (cd : List (String × CourseRecord)) :
    ∀ st : AggState,
      (cd.foldl aggStep st).passed =
        st.passed +
          (cd.map (fun p => (pyRound (p.2.students * (p.2.pass_rate / 100)) : Rat))).sum := by
  induction cd with
  | nil => intro st; simp
  | cons p cd ih =>
    intro st
    show ((cd.foldl aggStep (aggStep st p)).passed) = _
    rw [ih]
    simp [aggStep]
    ring

/-- Membership after a dictionary insertion: the pair was already present or
is the inserted one. -/
theorem mem_updAssoc {m : List (String × Rat)} {k : String} {v : Rat}
    {p : String × Rat} (hp : p ∈ updAssoc m k v) : p ∈ m ∨ p = (k, v) := by
  unfold updAssoc at hp
  split at hp
  · rw [List.mem_map] at hp
    obtain ⟨q, hq, hqe⟩ := hp
    by_cases hk : q.1 == k
    · right
      rw [if_pos hk] at hqe
      exact hqe.symm
    · left
      rw [if_neg hk] at hqe
      exact hqe ▸ hq
  · rw [List.mem_append, List.mem_singleton] at hp
    exact hp

/-- One PLO loop step preserves the soundness invariant. -/
theorem ploStep_sound {hr tr : List Cell} {acc : List (String × Rat)} {col : Cell}
    (hcol : col ∈ hr) (hacc : ∀ p ∈ acc, ploSound hr tr p) :
    ∀ p ∈ ploStep hr tr acc col, ploSound hr tr p := by
  intro p hp
  unfold ploStep at hp
  split at hp
  · rename_i hplo
    cases hjc : findColEq hr col with
    | none => simp only [hjc] at hp; exact hacc p hp
    | some jc =>
      simp only [hjc] at hp
      cases hw : toNumeric (getCell tr jc) with
      | none => simp only [hw] at hp; exact hacc p hp
      | some w =>
        simp only [hw] at hp
        by_cases h0 : 0 < w
        · rw [if_pos h0] at hp
          rcases mem_updAssoc hp with h | h
          · exact hacc p h
          · exact ⟨col, hcol, hplo, by rw [h], jc, w, hjc, hw, h0, by rw [h]; rfl⟩
        · rw [if_neg h0] at hp
          exact hacc p hp
  · exact hacc p hp

/-- The PLO loop only emits sound pairs. -/
theorem foldl_ploStep_sound (hr tr : List Cell) :
    ∀ (hs : List Cell) (acc : List (String × Rat)), (∀ c ∈ hs, c ∈ hr) →
      (∀ p ∈ acc, ploSound hr tr p) →
      ∀ p ∈ hs.foldl (ploStep hr tr) acc, ploSound hr tr p := by
  intro hs
  induction hs with
  | nil => intro acc _ hacc p hp; exact hacc p hp
  | cons c hs ih =>
    intro acc hmem hacc p hp
    exact ih (ploStep hr tr acc c) (fun x hx => hmem x (List.mem_cons_of_mem c hx))
      (ploStep_sound (hmem c (List.mem_cons_self c hs)) hacc) p hp

/-
  Claim theorems.
-/

/-- Claim C1, counterexample: gC1dash has a row containing Total Students, no
row contains both keywords, and dashboard extraction does not return the
zero pair: it returns fifty students with a zero rate. -/
theorem dashboard_header_both_keywords_counterexample :
    gC1dash.rows.any (fun r => strIn "Total Students" (rowStr r)) = true ∧
    gC1dash.rows.all
      (fun r => !(strIn "Total Students" (rowStr r) && strIn "Pass Rate" (rowStr r))) = true ∧
    (extract_dashboard_metrics gC1dash).1 = (some 50, 0) ∧
    (extract_dashboard_metrics gC1dash).1 ≠ (some 0, 0) :=
  ⟨by decide, by decide, by with_unfolding_all decide, by with_unfolding_all decide⟩

/-- Claim C1, amended: the dashboard extractor locates its header row by the
single keyword Total Students; Pass Rate need not co-occur.  When no row
mentions Total Students the extractor returns the zero pair and leaves the
frame untouched; on a grid whose header row lacks Pass Rate it still
extracts the student count, with a zero pass rate, and on the minimal
specification grid it returns fifty students at ninety percent. -/
theorem dashboard_header_single_keyword :
    (∀ df : Frame, (∀ r ∈ df.rows, strIn "Total Students" (rowStr r) = false) →
      extract_dashboard_metrics df = ((some 0, 0), df)) ∧
    (extract_dashboard_metrics gC1dash).1 = (some 50, 0) ∧
    (extract_dashboard_metrics gSpecDash).1 = (some 50, 90) := by
  refine ⟨?_, by with_unfolding_all decide, by with_unfolding_all decide⟩
  intro df h
  have hnone : find_val_in_df df "Total Students" = none :=
    List.findIdx?_eq_none_iff.mpr h
  simp only [extract_dashboard_metrics, hnone]

/-- Claim C1, witness: the general branch applied to a one-row grid with no
Total Students keyword. -/
theorem dashboard_header_single_keyword_witness :
    extract_dashboard_metrics { labels := [], rows := [[Cell.str "no header here"]] } =
      ((some 0, 0), { labels := [], rows := [[Cell.str "no header here"]] }) :=
  dashboard_header_single_keyword.1 _ (by decide)

/-- Claim C2: the overall pass rate is the weighted cohort formula, namely
the sum of the rounded per-course passed counts over the student total,
times one hundred, when the student total is positive; else the unweighted
mean of per-course rates when any record exists; else zero.  On the two
specification courses it is two hundred fifty thirds, roughly 83.3, and not
the naive average seventy five. -/
theorem overall_pass_rate_weighted_formula :
    (∀ cd : List (String × CourseRecord),
      overall_pass_rate cd =
        if 0 < (cd.map (fun p => p.2.students)).sum then
          (cd.map (fun p => (pyRound (p.2.students * (p.2.pass_rate / 100)) : Rat))).sum /
            (cd.map (fun p => p.2.students)).sum * 100
        else if cd ≠ [] then
          (cd.map (fun p => p.2.pass_rate)).sum / (cd.length : Rat)
        else 0) ∧
    overall_pass_rate [("A", recAgg 10 50), ("B", recAgg 20 100)] = 250 / 3 ∧
    overall_pass_rate [("A", recAgg 10 50), ("B", recAgg 20 100)] ≠ 75 := by
  refine ⟨?_, by with_unfolding_all decide, by with_unfolding_all decide⟩
  intro cd
  simp only [overall_pass_rate, aggregate]
  rw [agg_total, agg_passed, agg_rows]
  have hcomp : ((fun r => r.passRate) ∘ mkCourseRow) =
      (fun p : String × CourseRecord => p.2.pass_rate) := funext fun p => rfl
  simp only [List.nil_append, zero_add, List.map_map, List.length_map, ne_eq,
    List.map_eq_nil_iff, hcomp]

/-- Claim C3: the three normalization sites apply one uniform rule, a value
at most one is scaled by one hundred and a larger value is unchanged; once a
normalized value exceeds one a second normalization is a no-op; eight tenths
normalizes to eighty and eighty normalizes to itself. -/
theorem percent_normalization_uniform :
    (∀ v : Rat, normalizeDash v = normalizePercent v) ∧
    (∀ v : Rat, normalizePlo v = normalizePercent v) ∧
    (∀ v : Rat, normalizeCqi v = normalizePercent v) ∧
    (∀ x : Rat, 1 < normalizePercent x →
      normalizePercent (normalizePercent x) = normalizePercent x) ∧
    normalizePercent (mkRat 8 10) = 80 ∧ normalizePercent 80 = 80 := by
  refine ⟨fun v => rfl, fun v => rfl, fun v => rfl, ?_, ?_, ?_⟩
  · intro x hx
    have h : ¬ normalizePercent x ≤ 1 := not_le.mpr hx
    calc normalizePercent (normalizePercent x)
        = if normalizePercent x ≤ 1 then normalizePercent x * 100 else normalizePercent x := rfl
      _ = normalizePercent x := if_neg h
  · with_unfolding_all decide
  · with_unfolding_all decide

/-- Claim C3, witness: idempotence applied at eight tenths, whose first
normalization is eighty. -/
theorem percent_normalization_uniform_witness :
    normalizePercent (normalizePercent (mkRat 8 10)) = normalizePercent (mkRat 8 10) :=
  percent_normalization_uniform.2.2.2.1 (mkRat 8 10) (by with_unfolding_all decide)

/-- Claim C4: the code filter equals the claimed one, an entry is produced
from a row exactly when the row is failing and its issue text is meaningful,
and on the concrete grid the Pass row is excluded despite its issue text
while the Fail row yields the recommendation stored under the keyword late. -/
theorem issue_entry_filter_iff :
    (∀ (cols : CqiCols) (row : List Cell),
      cqiIsFail cols row = (statusMatches cols row || scoreFailsSpec cols row)) ∧
    (∀ (cols : CqiCols) (row : List Cell),
      cqiRow cols row ≠ [] ↔
        (cqiIsFail cols row = true ∧ issueNontrivial cols row = true)) ∧
    cqiColsOf (gC4.rows.getD 0 []) = some colsC4 ∧
    cqiRow colsC4 [Cell.str "Pass", Cell.str "Attendance problems", Cell.str ""] = [] ∧
    (extract_cqi_issues gC4).1 =
      [{ issue := "Late submissions", action := lateAction,
         evidence := "Course Audit Report" }] ∧
    get_smart_recommendation "Late submissions" "" = lateAction ∧
    recommendationTable.find? (fun p => p.1 == "late") = some ("late", lateAction) := by
  refine ⟨?_, ?_, by decide, by decide, by decide, by decide, by decide⟩
  · intro cols row
    unfold cqiIsFail statusMatches scoreFailsSpec normalizeCqi normalizePercent
    cases cols.colStatus with
    | none =>
      simp
    | some j =>
      by_cases h : (strIn "fail" (strLower (cellStr (getCell row j))) ||
          strIn "no" (strLower (cellStr (getCell row j)))) = true
      · simp [h]
      · simp only [Bool.not_eq_true] at h
        simp [h]
  · intro cols row
    unfold cqiRow
    cases hf : cqiIsFail cols row <;> cases hn : issueNontrivial cols row <;> simp [hf, hn]

/-- Claim C4, witness: the iff applied to the failing row of the grid. -/
theorem issue_entry_filter_iff_witness :
    cqiRow colsC4 [Cell.str "Fail", Cell.str "Late submissions", Cell.str ""] ≠ [] :=
  (issue_entry_filter_iff.2.1 colsC4
    [Cell.str "Fail", Cell.str "Late submissions", Cell.str ""]).mpr
    ⟨by decide, by decide⟩

/-- Claim C5: every pair of the PLO score mapping comes from a PLO-labelled
header column whose values-row entry parses to a positive number, stored
under the trimmed label with the normalized value; when no body row carries
an Achievement or Average first cell the mapping is empty; and the concrete
claim grid yields exactly the pair PLO 1 at sixty. -/
theorem plo_extraction_sound :
    (∀ (hr tr : List Cell) (k : String) (v : Rat), (k, v) ∈ ploScores hr tr →
      ∃ col, col ∈ hr ∧ strIn "PLO" (cellStr col) = true ∧ k = (cellStr col).trim ∧
        ∃ jc w, findColEq hr col = some jc ∧ toNumeric (getCell tr jc) = some w ∧
          0 < w ∧ v = normalizePercent w) ∧
    (∀ (hr : List Cell) (body : List (List Cell)),
      (∀ r ∈ body, achCell (getCell r 0) = false) → ploFromBody hr body = []) ∧
    (extract_plo_metrics gC5).1 = [("PLO 1", 60)] := by
  refine ⟨?_, ?_, by with_unfolding_all decide⟩
  · intro hr tr k v hkv
    exact foldl_ploStep_sound hr tr hr [] (fun c hc => hc) (by simp) (k, v) hkv
  · intro hr body hach
    cases hr with
    | nil => rfl
    | cons first rest =>
      have hidx : findColEq (first :: rest) first = some 0 := by
        unfold findColEq
        rw [List.findIdx?_cons]
        simp
      have hnone : body.findIdx? (fun r => achCell (getCell r 0)) = none :=
        List.findIdx?_eq_none_iff.mpr hach
      simp only [ploFromBody, hidx, Option.getD_some, hnone]

/-- Claim C5, witness: the no-values-row branch applied to a one-row body
with no Achievement or Average text. -/
theorem plo_extraction_sound_witness :
    ploFromBody [Cell.str "PLO 1"] [[Cell.str "not the values row"]] = [] :=
  plo_extraction_sound.2.1 [Cell.str "PLO 1"] [[Cell.str "not the values row"]] (by decide)

/-- Claim C6: each extractor contains its failures; with no header-keyword
row the dashboard extractor returns the zero pair, the PLO extractor the
empty mapping and the issue extractor the empty list, and a located header
row without an exact Total Students cell, the caught key-lookup failure,
also yields the zero pair. -/
theorem extractors_contain_failures :
    (∀ df : Frame, (∀ r ∈ df.rows, strIn "Total Students" (rowStr r) = false) →
      (extract_dashboard_metrics df).1 = (some 0, 0)) ∧
    (∀ (df : Frame) (h : Nat), find_val_in_df df "Total Students" = some h →
      findColEq (df.rows.getD h []) (Cell.str "Total Students") = none →
      (extract_dashboard_metrics df).1 = (some 0, 0)) ∧
    (∀ df : Frame,
      (∀ r ∈ df.rows, strIn "PLO 1" (rowStr r) = false ∧ strIn "PLO1" (rowStr r) = false) →
      (extract_plo_metrics df).1 = []) ∧
    (∀ df : Frame,
      (∀ r ∈ df.rows, ¬(strIn "Issue" (rowStr r) = true ∧ strIn "Suggestion" (rowStr r) = true)) →
      (extract_cqi_issues df).1 = []) := by
  refine ⟨?_, ?_, ?_, ?_⟩
  · intro df h
    have hnone : find_val_in_df df "Total Students" = none :=
      List.findIdx?_eq_none_iff.mpr h
    simp only [extract_dashboard_metrics, hnone]
  · intro df h hfind hcol
    simp only [extract_dashboard_metrics, hfind, dashFromBody, hcol]
  · intro df h
    have hnone : ploHeaderIdx df = none := by
      apply List.findIdx?_eq_none_iff.mpr
      intro r hr
      simp [(h r hr).1, (h r hr).2]
    simp only [extract_plo_metrics, hnone]
  · intro df h
    have hnone : df.rows.findIdx?
        (fun row => strIn "Issue" (rowStr row) && strIn "Suggestion" (rowStr row)) = none := by
      apply List.findIdx?_eq_none_iff.mpr
      intro r hr
      have := h r hr
      simp only [Bool.and_eq_true] at this ⊢
      by_cases h1 : strIn "Issue" (rowStr r) = true
      · simp [h1] at this ⊢
        exact this
      · simp [Bool.not_eq_true] at h1
        simp [h1]
    simp only [extract_cqi_issues, hnone]

/-- Claim C6, witness: the three empty results on a keyword-free grid. -/
theorem extractors_contain_failures_witness :
    (extract_dashboard_metrics { labels := [], rows := [[Cell.str "just text"]] }).1 = (some 0, 0) ∧
    (extract_plo_metrics { labels := [], rows := [[Cell.str "just text"]] }).1 = [] ∧
    (extract_cqi_issues { labels := [], rows := [[Cell.str "just text"]] }).1 = [] :=
  ⟨extractors_contain_failures.1 _ (by decide),
   extractors_contain_failures.2.2.1 _ (by decide),
   extractors_contain_failures.2.2.2 _ (by decide)⟩

/-- Claim C7, counterexample: a processed dashboard file with a stored pass
rate of minus fifty emits a per-course row whose fail rate is one hundred
fifty, above one hundred, so the two-sided clamp does not hold. -/
theorem fail_rate_clamp_counterexample :
    (aggregate (processFiles [fileDashNeg])).rows.map (fun r => (r.passRate, r.failRate)) =
      [(-50, 150)] ∧
    ¬ ((150 : Rat) ≤ 100) :=
  ⟨by with_unfolding_all decide, by decide⟩

/-- Claim C7, amended: every emitted row has fail rate one hundred minus the
pass rate when that rate is at most one hundred, else zero; the fail rate is
never negative, and it is at most one hundred whenever the stored pass rate
is nonnegative, while a negative stored rate pushes it above one hundred. -/
theorem fail_rate_lower_clamp_only :
    ∀ (cd : List (String × CourseRecord)) (r : CourseRow), r ∈ (aggregate cd).rows →
      r.failRate = (if r.passRate ≤ 100 then 100 - r.passRate else 0) ∧
      0 ≤ r.failRate ∧ (0 ≤ r.passRate → r.failRate ≤ 100) := by
  intro cd r hr
  rw [aggregate, agg_rows] at hr
  simp only [List.nil_append, List.mem_map] at hr
  obtain ⟨p, hp, rfl⟩ := hr
  unfold mkCourseRow
  refine ⟨rfl, ?_, ?_⟩
  · dsimp
    split
    · next h => linarith
    · linarith
  · intro h0
    dsimp at h0 ⊢
    split
    · linarith
    · linarith

/-- Claim C7, witness: the bounds applied to the row of a default record. -/
theorem fail_rate_lower_clamp_only_witness :
    mkCourseRow ("K", defaultRecord) ∈ (aggregate [("K", defaultRecord)]).rows ∧
    (mkCourseRow ("K", defaultRecord)).failRate ≤ 100 :=
  ⟨by with_unfolding_all decide,
   (fail_rate_lower_clamp_only [("K", defaultRecord)] (mkCourseRow ("K", defaultRecord))
     (by with_unfolding_all decide)).2.2 (by with_unfolding_all decide)⟩

/-- Claim C8, counterexample: of two dashboard files for one course, the
later file extracts the zero pair, yet the record keeps the earlier values
ten and fifty, so last-processed does not win unconditionally. -/
theorem dashboard_last_wins_counterexample :
    (extract_dashboard_metrics gDashB).1 = (some 0, 0) ∧
    (lookupRec (processFiles [fileDashA, fileDashB]) "ABCD1234").map
      (fun r => (r.students, r.pass_rate)) = some (10, 50) ∧
    ((10 : Rat), (50 : Rat)) ≠ ((0 : Rat), (0 : Rat)) :=
  ⟨by with_unfolding_all decide, by with_unfolding_all decide, by decide⟩

/-- Claim C8, amended: over any sequence of dashboard extraction results for
one record, the stored fields equal those of the last result whose student
count is a positive number; results failing that guard leave the record
unchanged, with no conflict signal. -/
theorem dashboard_last_positive_wins :
    ∀ (l : List (Option Rat × Rat)) (rec : CourseRecord),
      dashSeqFold rec l =
        match lastPosDash l with
        | some sr =>
          { rec with students := sr.1, pass_rate := sr.2, has_dashboard := true }
        | none => rec := by
  intro l
  induction l with
  | nil => intro rec; rfl
  | cons x l ih =>
    intro rec
    show dashSeqFold (applyDashboard rec x) l = _
    rw [ih]
    show _ = (match (match lastPosDash l with
                     | some y => some y
                     | none => posPart x) with
              | some sr => { rec with students := sr.1, pass_rate := sr.2, has_dashboard := true }
              | none => rec)
    cases hl : lastPosDash l with
    | some y =>
      simp only []
      unfold applyDashboard
      cases hp : posPart x with
      | some z => rfl
      | none => rfl
    | none =>
      simp only []
      rfl

/-- Claim C9, counterexample: running the dashboard extractor on a grid with
default numeric labels leaves the caller-visible labels changed. -/
theorem extractor_mutates_labels_counterexample :
    (extract_dashboard_metrics gC9).2.labels ≠ gC9.labels := by decide

/-- Claim C9, amended: no extractor changes the cell rows of its input grid,
but each one overwrites the column labels with the cells of the located
header row whenever one is found, and leaves them unchanged otherwise. -/
theorem extractor_preserves_rows_mutates_labels :
    ∀ df : Frame,
      ((extract_dashboard_metrics df).2.rows = df.rows ∧
       (extract_plo_metrics df).2.rows = df.rows ∧
       (extract_cqi_issues df).2.rows = df.rows) ∧
      ((extract_dashboard_metrics df).2.labels =
        match find_val_in_df df "Total Students" with
        | some h => df.rows.getD h []
        | none => df.labels) ∧
      ((extract_plo_metrics df).2.labels =
        match ploHeaderIdx df with
        | some h => df.rows.getD h []
        | none => df.labels) ∧
      ((extract_cqi_issues df).2.labels =
        match df.rows.findIdx?
            (fun row => strIn "Issue" (rowStr row) && strIn "Suggestion" (rowStr row)) with
        | some h => df.rows.getD h []
        | none => df.labels) := by
  intro df
  refine ⟨⟨?_, ?_, ?_⟩, ?_, ?_, ?_⟩
  · unfold extract_dashboard_metrics
    cases h : find_val_in_df df "Total Students" <;> simp [h]
  · unfold extract_plo_metrics
    cases h : ploHeaderIdx df <;> simp [h]
  · unfold extract_cqi_issues
    cases h : df.rows.findIdx?
        (fun row => strIn "Issue" (rowStr row) && strIn "Suggestion" (rowStr row)) <;> simp [h]
  · unfold extract_dashboard_metrics
    cases h : find_val_in_df df "Total Students" <;> simp [h]
  · unfold extract_plo_metrics
    cases h : ploHeaderIdx df <;> simp [h]
  · unfold extract_cqi_issues
    cases h : df.rows.findIdx?
        (fun row => strIn "Issue" (rowStr row) && strIn "Suggestion" (rowStr row)) <;> simp [h]

/-- Claim C10: a flat-table file whose name matches no routing substring
still creates the default record for its extracted key; the row of a
default record carries a zero pass rate and a fail rate of one hundred,
which passes the high-failure filter; and the default record is counted in
the unweighted-mean fallback together with a zero-student full-pass record,
giving fifty while the student total is zero. -/
theorem default_record_creation_and_effects :
    (∀ (name : String) (grid : Frame) (cd : List (String × CourseRecord)),
      strIn "Dashboard" name = false → strIn "CRR" name = false →
      strIn "Table 3" name = false → strIn "PLO" name = false →
      strIn "Table 2" name = false →
      lookupRec cd (extract_course_code name) = none →
      processFile cd { name := name, content := FileContent.table grid } =
        cd ++ [(extract_course_code name, defaultRecord)]) ∧
    (∀ k : String, mkCourseRow (k, defaultRecord) =
      { code := k, passRate := 0, failRate := 100, students := 0 }) ∧
    (∀ k : String, high_fail_rows [(k, defaultRecord)] = [mkCourseRow (k, defaultRecord)]) ∧
    (aggregate [("K", defaultRecord), ("L", recMeanProbe)]).total = 0 ∧
    overall_pass_rate [("K", defaultRecord), ("L", recMeanProbe)] = 50 := by
  refine ⟨?_, ?_, ?_, by with_unfolding_all decide, by with_unfolding_all decide⟩
  · intro name grid cd h1 h2 h3 h4 h5 hlook
    simp only [processFile, hlook, h1, h2, h3, h4, h5]
    simp
  · intro k
    unfold mkCourseRow defaultRecord
    simp
  · intro k
    unfold high_fail_rows aggregate
    simp only [List.foldl_cons, List.foldl_nil, aggStep]
    simp only [List.nil_append]
    rw [List.filter_cons]
    norm_num [mkCourseRow, defaultRecord]

/-- Claim C10, witness: processing one unrouted file from the empty mapping
creates exactly the default record under the sentinel key. -/
theorem default_record_creation_and_effects_witness :
    processFile []
      { name := "notes.csv",
        content := FileContent.table { labels := [], rows := [] } } =
      [] ++ [(extract_course_code "notes.csv", defaultRecord)] :=
  default_record_creation_and_effects.1 "notes.csv" { labels := [], rows := [] } []
    (by decide) (by decide) (by decide) (by decide) (by decide) (by decide)
